import Mathlib

/-!
Verification of the fallback session-logout script (`logout.py`).

The script is embedded shallowly: the process environment (installed
executables, environment variables, user identity, and the answers the
external shell and process-invocation mechanisms give) is a record of pure
functions, and every Python function of the source is translated to a Lean
function over that record.  String operations of Python (`splitlines`,
`split`, `strip`, `startswith`, substring `in`, `lower`) are modelled by
structurally recursive functions on the character list of the string so that
everything evaluates inside the kernel.
-/

namespace Logout

/-- Whitespace characters recognised by Python's `str.split()` and
`str.strip()` (space, tab, newline, carriage return, vertical tab, form
feed). -/
def pyIsSpace (c : Char) : Bool :=
  c == ' ' || c == '\t' || c == '\n' || c == '\r' ||
  c == Char.ofNat 11 || c == Char.ofNat 12

/-- Split a character list at every character satisfying `p`, keeping empty
chunks.  Helper for the Python string-splitting operations. -/
def splitCharsAux (p : Char → Bool) : List Char → List Char → List (List Char)
  | [], acc => [acc.reverse]
  | c :: rest, acc =>
    if p c then acc.reverse :: splitCharsAux p rest []
    else splitCharsAux p rest (c :: acc)

/-- Model of Python `str.splitlines()` (line separators reduced to the
newline character): the empty string gives no lines, and a terminal newline
does not produce a trailing empty line. -/
def pySplitlines (s : String) : List String :=
  if s.data = [] then []
  else
    let parts := (splitCharsAux (fun c => c == '\n') s.data []).map
      fun cs => (⟨cs⟩ : String)
    if s.data.getLast? = some '\n' then parts.dropLast else parts

/-- Model of Python `str.split()` with no arguments: split on whitespace
runs, discarding empty pieces. -/
def pySplitWs (s : String) : List String :=
  ((splitCharsAux pyIsSpace s.data []).map fun cs => (⟨cs⟩ : String)).filter
    fun t => t ≠ ""

/-- Model of Python `str.strip()`: remove leading and trailing
whitespace. -/
def pyStrip (s : String) : String :=
  ⟨((s.data.dropWhile pyIsSpace).reverse.dropWhile pyIsSpace).reverse⟩

/-- Model of Python `str.startswith(pre)`. -/
def pyStartsWith (s pre : String) : Bool :=
  List.isPrefixOf pre.data s.data

/-- Drop the first `n` characters of a string (Python slicing `s[n:]`). -/
def strDrop (s : String) (n : Nat) : String :=
  ⟨s.data.drop n⟩

/-- Helper for the substring test: does `sub` occur as a contiguous infix of
the character list? -/
def containsList (sub : List Char) : List Char → Bool
  | [] => sub == []
  | c :: rest => List.isPrefixOf sub (c :: rest) || containsList sub rest

/-- Model of Python's substring membership test `sub in s`. -/
def strContains (s sub : String) : Bool :=
  containsList sub.data s.data

/-- Model of Python `str.lower()` (character-wise ASCII lowering). -/
def pyLower (s : String) : String :=
  ⟨s.data.map Char.toLower⟩

/-- Python truthiness of an optional string: `None` and the empty string are
falsy. -/
def pyTruthy : Option String → Bool
  | none => false
  | some s => s ≠ ""

/-- Model of the Python expression `a or b` on optional strings: yields `a`
when `a` is truthy, otherwise `b`. -/
def pyOr (a b : Option String) : Option String :=
  if pyTruthy a then a else b

/-- What an external command invocation can come back with: a completed
process (exit status, standard output, standard error) or an exception
raised by the invocation mechanism itself, carrying its text. -/
abbrev SpawnResult := Except String (Int × String × String)

/-- The read-only execution environment of one run of the script: the
executable-presence oracle behind `shutil.which`, the environment-variable
store, the current user name and numeric uid, and the answers the external
shell (`run_shell`) and argument-vector invocation (`run_cmd_list`)
mechanisms give to each command. -/
structure Env where
  which : String → Bool
  getenv : String → Option String
  user : String
  uid : Nat
  shell : String → SpawnResult
  runList : List String → SpawnResult

/-- Embedding of `cmd_exists`: `shutil.which(cmd) is not None`. -/
def cmd_exists (env : Env) (cmd : String) : Bool :=
  env.which cmd

/-- Embedding of `run_cmd_list`: invoke an argument vector; with capture the
stripped standard streams are returned, without capture they are empty; an
exception from the invocation mechanism is caught and becomes exit status 1
with the exception text as captured error text. -/
def run_cmd_list (env : Env) (cmd : List String) (capture : Bool) :
    Int × String × String :=
  match env.runList cmd with
  | .ok (rc, o, e) => if capture then (rc, pyStrip o, pyStrip e) else (rc, "", "")
  | .error m => (1, "", m)

/-- Core of `run_shell` over the shell-answer oracle `sh` (kept separate
from `Env` so that the recursive session search below depends only on the
shell oracle). -/
def run_shell_f (sh : String → SpawnResult) (cmd : String) (capture : Bool) :
    Int × String × String :=
  match sh cmd with
  | .ok (rc, o, e) => if capture then (rc, pyStrip o, pyStrip e) else (rc, "", "")
  | .error m => (1, "", m)

/-- Embedding of `run_shell`: run a command line through the shell. -/
def run_shell (env : Env) (cmd : String) (capture : Bool) :
    Int × String × String :=
  run_shell_f env.shell cmd capture

/-- Embedding of `get_xdg_session_id`:
`os.environ.get("XDG_SESSION_ID") or os.environ.get("WAYLAND_DISPLAY")`. -/
def get_xdg_session_id (env : Env) : Option String :=
  pyOr (env.getenv "XDG_SESSION_ID") (env.getenv "WAYLAND_DISPLAY")

/-- Does one line of `loginctl show-session <s> -p User` output name exactly
the wanted uid?  Embeds
`l.startswith("User=")` and `l.split("=",1)[1].strip() == str(uid)`. -/
def userLineMatches (uid : Nat) (l : String) : Bool :=
  pyStartsWith l "User=" && (pyStrip (strDrop l 5) == Nat.repr uid)

/-- Embedding of the per-session body of `find_session_for_uid`: query the
session's metadata and scan its lines for a matching `User=` entry; a failed
or empty query matches nothing. -/
def sessionMatchesUid (sh : String → SpawnResult) (session : String)
    (uid : Nat) : Bool :=
  let r := run_shell_f sh
    ("loginctl show-session " ++ session ++ " -p User --no-pager") true
  r.1 == 0 && !(r.2.1 == "") && (pySplitlines r.2.1).any (userLineMatches uid)

/-- Embedding of the enumeration loop of `find_session_for_uid`: walk the
lines of `loginctl list-sessions` output, take the first whitespace-field of
each nonempty line as a session id, and return the first session whose
metadata names the wanted uid. -/
def findSessionAux (sh : String → SpawnResult) (uid : Nat) :
    List String → Option String
  | [] => none
  | line :: rest =>
    match pySplitWs line with
    | [] => findSessionAux sh uid rest
    | session :: _ =>
      if sessionMatchesUid sh session uid then some session
      else findSessionAux sh uid rest

/-- Embedding of `find_session_for_uid`: best-effort lookup of a session id
owned by `uid` through `loginctl`; any failure yields `none`. -/
def find_session_for_uid (env : Env) (uid : Nat) : Option String :=
  if cmd_exists env "loginctl" = false then none
  else
    let r := run_shell env "loginctl list-sessions --no-legend" true
    if r.1 ≠ 0 ∨ r.2.1 = "" then none
    else findSessionAux env.shell uid (pySplitlines r.2.1)

/-- Embedding of `try_dm_tool_switch`. -/
def try_dm_tool_switch (env : Env) : Option (List String) :=
  if cmd_exists env "dm-tool" then some ["dm-tool", "switch-to-greeter"]
  else none

/-- Embedding of `try_gnome_session_quit`. -/
def try_gnome_session_quit (env : Env) : Option (List String) :=
  if cmd_exists env "gnome-session-quit" then
    some ["gnome-session-quit", "--logout", "--no-prompt"]
  else none

/-- Embedding of `try_loginctl_terminate_session`: requires `loginctl` and a
truthy session identifier. -/
def try_loginctl_terminate_session (env : Env) (xdg : Option String) :
    Option (List String) :=
  match xdg with
  | some s =>
    if cmd_exists env "loginctl" && s != "" then
      some ["loginctl", "terminate-session", s]
    else none
  | none => none

/-- Embedding of `try_loginctl_found_session`. -/
def try_loginctl_found_session (env : Env) (uid : Nat) :
    Option (List String) :=
  if cmd_exists env "loginctl" = false then none
  else
    match find_session_for_uid env uid with
    | some s => some ["loginctl", "terminate-session", s]
    | none => none

/-- Embedding of `try_loginctl_terminate_user`. -/
def try_loginctl_terminate_user (env : Env) (user : String) :
    Option (List String) :=
  if cmd_exists env "loginctl" then some ["loginctl", "terminate-user", user]
  else none

/-- Embedding of `try_kill_user_pkill`. -/
def try_kill_user_pkill (env : Env) (user : String) : Option (List String) :=
  if cmd_exists env "pkill" then some ["pkill", "-KILL", "-u", user]
  else none

/-- Embedding of `try_systemctl_restart_via_pkexec`. -/
def try_systemctl_restart_via_pkexec (env : Env) (dm_service : String) :
    Option (List String) :=
  if cmd_exists env "pkexec" && cmd_exists env "systemctl" then
    some ["pkexec", "systemctl", "restart", dm_service]
  else none

/-- The lowered desktop-identity string `env` that `best_guess_dm` builds
from the three desktop environment variables. -/
def dmEnvString (env : Env) : String :=
  pyLower
    ((env.getenv "XDG_CURRENT_DESKTOP").getD "" ++ " " ++
     (env.getenv "DESKTOP_SESSION").getD "" ++ " " ++
     (env.getenv "XDG_SESSION_DESKTOP").getD "")

/-- Embedding of `best_guess_dm`: the display-manager heuristic over desktop
environment variables and installed binaries. -/
def best_guess_dm (env : Env) : Option String :=
  if strContains (dmEnvString env) "gnome" || cmd_exists env "gdm" ||
      cmd_exists env "gdm3" then
    some "gdm"
  else if strContains (dmEnvString env) "kde" || cmd_exists env "sddm" then
    some "sddm"
  else if strContains (dmEnvString env) "xfce" || cmd_exists env "lightdm" then
    some "lightdm"
  else if cmd_exists env "gdm" || cmd_exists env "gdm3" then some "gdm"
  else if cmd_exists env "sddm" then some "sddm"
  else if cmd_exists env "lightdm" || cmd_exists env "dm-tool" then
    some "lightdm"
  else none

/-- Description string of the dm-tool candidate in `main`. -/
def descDmTool : String := "dm-tool switch-to-greeter (LightDM greeter)"

/-- Description string of the gnome-session-quit candidate in `main`. -/
def descGnome : String :=
  "gnome-session-quit --logout --no-prompt (GNOME safe logout)"

/-- Description string of the terminate-session-by-environment-id candidate
in `main`. -/
def descTermSession : String :=
  "loginctl terminate-session <XDG_SESSION_ID> (systemd)"

/-- Description string of the terminate-session-found-by-uid candidate in
`main`. -/
def descFoundSession : String :=
  "loginctl terminate-session <session found by UID> (systemd)"

/-- Description string of the terminate-user candidate in `main`. -/
def descTermUser : String :=
  "loginctl terminate-user <user> (kills all user processes)"

/-- Description string of the pkill candidate in `main`. -/
def descPkill : String := "pkill -KILL -u <user> (muy drástico)"

/-- Description string of a display-manager restart candidate in `main`
(the Python f-string with the service name interpolated). -/
def pkexecDesc (svc : String) : String :=
  "pkexec systemctl restart " ++ svc ++
  " (reinicia el display manager, requerirá autenticación)"

/-- The `m = try_...(); if m: methods.append((m, desc))` pattern of `main`:
an optional command contributes zero or one (command, description) entry. -/
def optEntry (m : Option (List String)) (d : String) :
    List (List String × String) :=
  match m with
  | some c => [(c, d)]
  | none => []

/-- Embedding of the display-manager-restart tail of the method list in
`main`: with a guessed display manager one restart candidate, otherwise one
candidate per known service in the loop order of the source. -/
def dmBlock (env : Env) : List (List String × String) :=
  match best_guess_dm env with
  | none =>
    optEntry (try_systemctl_restart_via_pkexec env "gdm") (pkexecDesc "gdm") ++
    optEntry (try_systemctl_restart_via_pkexec env "gdm3") (pkexecDesc "gdm3") ++
    optEntry (try_systemctl_restart_via_pkexec env "sddm") (pkexecDesc "sddm") ++
    optEntry (try_systemctl_restart_via_pkexec env "lightdm") (pkexecDesc "lightdm")
  | some dm => optEntry (try_systemctl_restart_via_pkexec env dm) (pkexecDesc dm)

/-- Embedding of the method-list construction of `main` (Method Discovery):
the seven appends, in source order, over the current environment. -/
def buildMethods (env : Env) : List (List String × String) :=
  optEntry (try_dm_tool_switch env) descDmTool ++
  optEntry (try_gnome_session_quit env) descGnome ++
  optEntry (try_loginctl_terminate_session env (get_xdg_session_id env))
    descTermSession ++
  optEntry (try_loginctl_found_session env env.uid) descFoundSession ++
  optEntry (try_loginctl_terminate_user env env.user) descTermUser ++
  optEntry (try_kill_user_pkill env env.user) descPkill ++
  dmBlock env

/-- Embedding of the capture choice in the execution loop of `main`:
`capture = True if ("loginctl" in desc or "pkexec" in desc) else False`. -/
def captureFor (desc : String) : Bool :=
  strContains desc "loginctl" || strContains desc "pkexec"

/-- The exit status `attempt_method` observes for a command: the external
command's own status, or 1 when the invocation mechanism raised.  This is
`(run_cmd_list env cmd capture).1` for either capture choice. -/
def rcOf (env : Env) (cmd : List String) : Int :=
  match env.runList cmd with
  | .ok r => r.1
  | .error _ => 1

/-- Observable outcome of one run of the script: the argument vectors
invoked, in order; the process exit code; and the description of the
succeeding method reported by `attempt_method`, when one succeeded. -/
structure RunResult where
  invoked : List (List String)
  exit : Nat
  succeeded : Option String
deriving DecidableEq, Repr

/-- Embedding of the execution loop of `main` together with
`attempt_method`: try each (command, description) pair in order; the first
command with exit status 0 stops the loop with process exit code 0 and its
description reported; if the list runs out the process exit code is 3. -/
def runMethods (env : Env) : List (List String × String) → RunResult
  | [] => ⟨[], 3, none⟩
  | (cmd, desc) :: rest =>
    if (run_cmd_list env cmd (captureFor desc)).1 = 0 then ⟨[cmd], 0, some desc⟩
    else
      ⟨cmd :: (runMethods env rest).invoked, (runMethods env rest).exit,
        (runMethods env rest).succeeded⟩

/-- Embedding of `main`: exit 1 when `--execute` is not among the
arguments; exit 2 when the method list is empty; otherwise run the fallback
loop over the discovered methods. -/
def mainRun (env : Env) (argv : List String) : RunResult :=
  if "--execute" ∈ argv then
    if buildMethods env = [] then ⟨[], 2, none⟩
    else runMethods env (buildMethods env)
  else ⟨[], 1, none⟩

/-- Disruptiveness tier of a candidate, keyed by its description string, in
the order the source constructs the list: greeter-switch (dm-tool) first,
then desktop-session-quit, the three loginctl tiers, the forceful process
kill, and display-manager restart last. -/
def tierOf (d : String) : Nat :=
  if d = descDmTool then 0
  else if d = descGnome then 1
  else if d = descTermSession then 2
  else if d = descFoundSession then 3
  else if d = descTermUser then 4
  else if d = descPkill then 5
  else 6

/-- Disruptiveness tier of a candidate as the specification orders the
templates: desktop-session-quit first, then greeter-switch, then the same
remaining tiers.  Used only to state the specified ordering, for comparison
with the order the source builds. -/
def specTierOf (d : String) : Nat :=
  if d = descGnome then 0
  else if d = descDmTool then 1
  else if d = descTermSession then 2
  else if d = descFoundSession then 3
  else if d = descTermUser then 4
  else if d = descPkill then 5
  else 6

/-- Shell oracle that fails every command (exit status 1, no output). -/
def shellFail : String → SpawnResult := fun _ => .ok (1, "", "")

/-- Invocation oracle that fails every argument vector. -/
def runListFail : List String → SpawnResult := fun _ => .ok (1, "", "")

/-- Environment for the first-success scenario: `dm-tool` and
`gnome-session-quit` installed, the dm-tool command fails with status 1 and
the gnome command succeeds. -/
def envW1 : Env where
  which := fun c => c == "dm-tool" || c == "gnome-session-quit"
  getenv := fun _ => none
  user := "alice"
  uid := 1000
  shell := shellFail
  runList := fun c =>
    if c == ["dm-tool", "switch-to-greeter"] then .ok (1, "", "")
    else .ok (0, "", "")

/-- Environment for the exhaustion scenario: only `dm-tool` installed and
every invocation fails. -/
def envW2 : Env where
  which := fun c => c == "dm-tool"
  getenv := fun _ => none
  user := "alice"
  uid := 1000
  shell := shellFail
  runList := runListFail

/-- Environment whose invocation mechanism raises on every command. -/
def envW5 : Env where
  which := fun c => c == "dm-tool"
  getenv := fun _ => none
  user := "alice"
  uid := 1000
  shell := shellFail
  runList := fun _ => .error "boom"

/-- Environment with both `dm-tool` and `gnome-session-quit` installed, to
exhibit which of the two Discovery places first. -/
def envC4 : Env where
  which := fun c => c == "dm-tool" || c == "gnome-session-quit"
  getenv := fun _ => none
  user := "alice"
  uid := 1000
  shell := shellFail
  runList := runListFail

/-- Minimal environment with nothing installed, for the missing
`--execute` scenario. -/
def envC6 : Env where
  which := fun _ => false
  getenv := fun _ => none
  user := "alice"
  uid := 1000
  shell := shellFail
  runList := runListFail

/-- Environment for the forced-method scenario: only `dm-tool` is
installed and its command succeeds. -/
def envC7 : Env where
  which := fun c => c == "dm-tool"
  getenv := fun _ => none
  user := "alice"
  uid := 1000
  shell := shellFail
  runList := fun c =>
    if c == ["dm-tool", "switch-to-greeter"] then .ok (0, "", "")
    else .ok (1, "", "")

/-- Shared executable oracle of the session-enumeration scenario: only
`loginctl` installed. -/
def whichC8 : String → Bool := fun c => c == "loginctl"

/-- Shared environment variables of the session-enumeration scenario: a
session id is available directly (`XDG_SESSION_ID=7`). -/
def getenvC8 : String → Option String :=
  fun k => if k == "XDG_SESSION_ID" then some "7" else none

/-- Session-enumeration scenario, first variant: the enumeration answers
with session 9, whose metadata names uid 1000. -/
def envC8A : Env where
  which := whichC8
  getenv := getenvC8
  user := "alice"
  uid := 1000
  shell := fun s =>
    if s == "loginctl list-sessions --no-legend" then
      .ok (0, "9 1000 alice seat0", "")
    else if s == "loginctl show-session 9 -p User --no-pager" then
      .ok (0, "User=1000", "")
    else .ok (1, "", "")
  runList := runListFail

/-- Session-enumeration scenario, second variant: identical to the first
except that the enumeration query fails. -/
def envC8B : Env where
  which := whichC8
  getenv := getenvC8
  user := "alice"
  uid := 1000
  shell := shellFail
  runList := runListFail

/-- Environment without `loginctl`, for the omitted-candidate clause of the
session-enumeration behaviour. -/
def envC8W : Env where
  which := fun _ => false
  getenv := getenvC8
  user := "alice"
  uid := 1000
  shell := shellFail
  runList := runListFail

/-- Shared discovery-relevant observations of the determinism scenario. -/
def whichC9 : String → Bool := fun c => c == "dm-tool" || c == "pkill"

/-- Shared environment variables of the determinism scenario. -/
def getenvC9 : String → Option String :=
  fun k => if k == "WAYLAND_DISPLAY" then some "wayland-0" else none

/-- Determinism scenario, first run: every invocation succeeds. -/
def envC9A : Env where
  which := whichC9
  getenv := getenvC9
  user := "bob"
  uid := 1001
  shell := shellFail
  runList := fun _ => .ok (0, "", "")

/-- Determinism scenario, second run: identical observations, but the
invocation mechanism (not consulted by Discovery) differs. -/
def envC9B : Env where
  which := whichC9
  getenv := getenvC9
  user := "bob"
  uid := 1001
  shell := shellFail
  runList := runListFail

/-- Environment with `WAYLAND_DISPLAY` set, `XDG_SESSION_ID` unset, and
`loginctl` installed. -/
def envC10 : Env where
  which := fun c => c == "loginctl"
  getenv := fun k => if k == "WAYLAND_DISPLAY" then some "wayland-0" else none
  user := "alice"
  uid := 1000
  shell := shellFail
  runList := runListFail

/-- The exit-status component of `run_cmd_list` does not depend on the
capture choice: it is the external status, or 1 after an exception. -/
theorem run_cmd_list_fst (env : Env) (cmd : List String) (cap : Bool) :
    (run_cmd_list env cmd cap).1 = rcOf env cmd := by
  cases h : env.runList cmd with
  | ok r =>
    obtain ⟨rc, o, e⟩ := r
    cases cap <;> simp [run_cmd_list, rcOf, h]
  | error m => simp [run_cmd_list, rcOf, h]

/-- When every listed method fails, the loop invokes each command once, in
order, and ends with exit code 3 and no reported success. -/
theorem runMethods_all_fail (env : Env) (l : List (List String × String))
    (h : ∀ e ∈ l, rcOf env e.1 ≠ 0) :
    runMethods env l = ⟨l.map Prod.fst, 3, none⟩ := by
  induction l with
  | nil => rfl
  | cons a rest ih =>
    obtain ⟨cmd, desc⟩ := a
    have ha : rcOf env cmd ≠ 0 := h (cmd, desc) (List.mem_cons_self _ _)
    have hrest := ih fun e he => h e (List.mem_cons_of_mem _ he)
    simp [runMethods, run_cmd_list_fst, ha, hrest]

/-- When the methods before some succeeding method all fail, the loop
invokes exactly the failing ones and the succeeding one, in order, stops
there, and reports the succeeding description with exit code 0. -/
theorem runMethods_first_success (env : Env)
    (pre post : List (List String × String)) (c : List String) (d : String)
    (hpre : ∀ e ∈ pre, rcOf env e.1 ≠ 0) (hc : rcOf env c = 0) :
    runMethods env (pre ++ (c, d) :: post) =
      ⟨pre.map Prod.fst ++ [c], 0, some d⟩ := by
  induction pre with
  | nil => simp [runMethods, run_cmd_list_fst, hc]
  | cons a pre ih =>
    obtain ⟨cmd, desc⟩ := a
    have ha : rcOf env cmd ≠ 0 := hpre (cmd, desc) (List.mem_cons_self _ _)
    have hrest := ih fun e he => hpre e (List.mem_cons_of_mem _ he)
    simp [runMethods, run_cmd_list_fst, ha, hrest]

/-- The loop only ever ends with exit code 0 or 3. -/
theorem runMethods_exit01 (env : Env) (l : List (List String × String)) :
    (runMethods env l).exit = 0 ∨ (runMethods env l).exit = 3 := by
  induction l with
  | nil => right; rfl
  | cons a rest ih =>
    obtain ⟨cmd, desc⟩ := a
    by_cases h : (run_cmd_list env cmd (captureFor desc)).1 = 0
    · left; simp [runMethods, h]
    · rcases ih with h3 | h3
      · left; simp [runMethods, h, h3]
      · right; simp [runMethods, h, h3]

/-- The loop ends with exit code 0 exactly when it reports a succeeding
method. -/
theorem runMethods_exit_zero_iff (env : Env)
    (l : List (List String × String)) :
    (runMethods env l).exit = 0 ↔ ((runMethods env l).succeeded).isSome := by
  induction l with
  | nil => simp [runMethods]
  | cons a rest ih =>
    obtain ⟨cmd, desc⟩ := a
    by_cases h : (run_cmd_list env cmd (captureFor desc)).1 = 0
    · simp [runMethods, h]
    · simp [runMethods, h, ih]

/-- The loop ends with exit code 3 exactly when every listed method's
command fails. -/
theorem runMethods_exit_three_iff (env : Env)
    (l : List (List String × String)) :
    (runMethods env l).exit = 3 ↔ ∀ e ∈ l, rcOf env e.1 ≠ 0 := by
  induction l with
  | nil => simp [runMethods]
  | cons a rest ih =>
    obtain ⟨cmd, desc⟩ := a
    by_cases h : rcOf env cmd = 0
    · have hred : runMethods env ((cmd, desc) :: rest) = ⟨[cmd], 0, some desc⟩ := by
        simp [runMethods, run_cmd_list_fst, h]
      rw [hred]
      constructor
      · intro h03; simp at h03
      · intro hall; exact absurd h (hall (cmd, desc) (List.mem_cons_self _ _))
    · have hred : runMethods env ((cmd, desc) :: rest) =
          ⟨cmd :: (runMethods env rest).invoked, (runMethods env rest).exit,
            (runMethods env rest).succeeded⟩ := by
        simp [runMethods, run_cmd_list_fst, h]
      rw [hred]
      constructor
      · intro h3 e he
        rcases List.mem_cons.1 he with rfl | hrest
        · exact h
        · exact (ih.1 h3) e hrest
      · intro hall
        exact ih.2 fun e he => hall e (List.mem_cons_of_mem _ he)

/-- A member of an `optEntry` block carries that block's description. -/
theorem mem_optEntry {a : List String × String} {m : Option (List String)}
    {d : String} (h : a ∈ optEntry m d) : a.2 = d := by
  cases m with
  | none => simp [optEntry] at h
  | some c =>
    simp [optEntry] at h
    subst h
    rfl

/-- A list whose members share one tier is ordered by tier. -/
theorem pairwise_of_tier_eq (k : Nat) (l : List (List String × String))
    (h : ∀ a ∈ l, tierOf a.2 = k) :
    l.Pairwise (fun a b => tierOf a.2 ≤ tierOf b.2) := by
  induction l with
  | nil => exact List.Pairwise.nil
  | cons a rest ih =>
    refine List.Pairwise.cons (fun b hb => ?_)
      (ih fun x hx => h x (List.mem_cons_of_mem _ hx))
    rw [h a (List.mem_cons_self _ _), h b (List.mem_cons_of_mem _ hb)]

/-- An `optEntry` block is trivially ordered by tier. -/
theorem pairwise_optEntry (m : Option (List String)) (d : String) :
    (optEntry m d).Pairwise (fun a b => tierOf a.2 ≤ tierOf b.2) := by
  cases m <;> simp [optEntry]

/-- Appending a block of tier at most `k` before a block of tier at least
`k` preserves ordering by tier. -/
theorem pairwise_tier_append {l1 l2 : List (List String × String)} (k : Nat)
    (h1 : ∀ a ∈ l1, tierOf a.2 ≤ k) (h2 : ∀ b ∈ l2, k ≤ tierOf b.2)
    (p1 : l1.Pairwise (fun a b => tierOf a.2 ≤ tierOf b.2))
    (p2 : l2.Pairwise (fun a b => tierOf a.2 ≤ tierOf b.2)) :
    (l1 ++ l2).Pairwise (fun a b => tierOf a.2 ≤ tierOf b.2) :=
  List.pairwise_append.2 ⟨p1, p2, fun a ha b hb => le_trans (h1 a ha) (h2 b hb)⟩

/-- The display-manager heuristic only ever guesses `gdm`, `sddm` or
`lightdm`. -/
theorem best_guess_dm_cases (env : Env) (d : String)
    (h : best_guess_dm env = some d) :
    d = "gdm" ∨ d = "sddm" ∨ d = "lightdm" := by
  unfold best_guess_dm at h
  split_ifs at h <;> simp_all

/-- Every member of the display-manager-restart tail sits in the last
tier. -/
theorem tier_dmBlock (env : Env) : ∀ a ∈ dmBlock env, tierOf a.2 = 6 := by
  intro a h
  unfold dmBlock at h
  split at h
  next =>
    simp only [List.mem_append] at h
    rcases h with ((h | h) | h) | h <;> (rw [mem_optEntry h]; decide)
  next dm heq =>
    rcases best_guess_dm_cases env dm heq with rfl | rfl | rfl <;>
      (rw [mem_optEntry h]; decide)

/-- C1: in execute mode, when the discovered candidate list splits into a
block of failing candidates followed by a succeeding one, the program
invokes exactly the failing commands and then the succeeding command, in
list order, never reaches any later candidate, reports success naming the
succeeding candidate's description, and exits with status 0. -/
theorem c1_first_success (env : Env) (argv : List String)
    (pre post : List (List String × String)) (c : List String) (d : String)
    (hx : "--execute" ∈ argv)
    (hm : buildMethods env = pre ++ (c, d) :: post)
    (hpre : ∀ e ∈ pre, rcOf env e.1 ≠ 0) (hc : rcOf env c = 0) :
    mainRun env argv = ⟨pre.map Prod.fst ++ [c], 0, some d⟩ := by
  have hne : (pre ++ (c, d) :: post) ≠ ([] : List (List String × String)) := by
    simp
  simp only [mainRun, hm]
  rw [if_pos hx, if_neg hne]
  exact runMethods_first_success env pre post c d hpre hc

/-- Witness for C1: with dm-tool failing and gnome-session-quit succeeding,
exactly the two commands run in order, the gnome method is reported, and
the exit status is 0. -/
theorem c1_witness :
    mainRun envW1 ["--execute"] =
      ⟨[["dm-tool", "switch-to-greeter"],
        ["gnome-session-quit", "--logout", "--no-prompt"]], 0,
        some descGnome⟩ :=
  c1_first_success envW1 ["--execute"]
    [(["dm-tool", "switch-to-greeter"], descDmTool)] []
    ["gnome-session-quit", "--logout", "--no-prompt"] descGnome
    (by decide) (by decide) (by decide) (by decide)

/-- C2: in execute mode, when every discovered candidate's command fails,
each candidate is invoked exactly once, in list order, with no retries, and
the program exits with status 3 reporting no success. -/
theorem c2_exhausted (env : Env) (argv : List String)
    (hx : "--execute" ∈ argv) (hne : buildMethods env ≠ [])
    (hall : ∀ e ∈ buildMethods env, rcOf env e.1 ≠ 0) :
    mainRun env argv = ⟨(buildMethods env).map Prod.fst, 3, none⟩ := by
  simp only [mainRun]
  rw [if_pos hx, if_neg hne]
  exact runMethods_all_fail env (buildMethods env) hall

/-- Witness for C2: with only dm-tool detected and failing, it is invoked
once and the exit status is 3. -/
theorem c2_witness :
    mainRun envW2 ["--execute"] =
      ⟨[["dm-tool", "switch-to-greeter"]], 3, none⟩ :=
  c2_exhausted envW2 ["--execute"] (by decide) (by decide) (by decide)

/-- C3: the process exit code is exactly 1 when `--execute` is missing,
2 when it is present but no candidate was discovered, 0 exactly when a
method succeeded, and 3 exactly when candidates were discovered and every
one was attempted and failed. -/
theorem c3_exit_codes (env : Env) (argv : List String) :
    ((mainRun env argv).exit = 1 ↔ "--execute" ∉ argv) ∧
    ((mainRun env argv).exit = 2 ↔
      "--execute" ∈ argv ∧ buildMethods env = []) ∧
    ((mainRun env argv).exit = 0 ↔ ((mainRun env argv).succeeded).isSome) ∧
    ((mainRun env argv).exit = 3 ↔
      "--execute" ∈ argv ∧ buildMethods env ≠ [] ∧
      ∀ e ∈ buildMethods env, rcOf env e.1 ≠ 0) := by
  by_cases hx : "--execute" ∈ argv
  · by_cases hm : buildMethods env = []
    · refine ⟨?_, ?_, ?_, ?_⟩ <;> simp [mainRun, hx, hm]
    · have hred : mainRun env argv = runMethods env (buildMethods env) := by
        simp only [mainRun]
        rw [if_pos hx, if_neg hm]
      rw [hred]
      refine ⟨?_, ?_, ?_, ?_⟩
      · rcases runMethods_exit01 env (buildMethods env) with h | h <;>
          simp [h, hx]
      · rcases runMethods_exit01 env (buildMethods env) with h | h <;>
          simp [h, hx, hm]
      · exact runMethods_exit_zero_iff env (buildMethods env)
      · rw [runMethods_exit_three_iff]
        constructor
        · intro hall; exact ⟨hx, hm, hall⟩
        · rintro ⟨-, -, hall⟩; exact hall
  · have hred : mainRun env argv = ⟨[], 1, none⟩ := by simp [mainRun, hx]
    rw [hred]
    refine ⟨?_, ?_, ?_, ?_⟩ <;> simp [hx]

/-- Joining blocks whose members sit exactly at the block's tier bound, with
the bounds in nondecreasing order, yields a list ordered by tier. -/
theorem pairwise_tier_blocks (bs : List (Nat × List (List String × String)))
    (h : ∀ p ∈ bs, ∀ a ∈ p.2, tierOf a.2 = p.1)
    (hp : (bs.map Prod.fst).Pairwise (· ≤ ·)) :
    (bs.map Prod.snd).flatten.Pairwise (fun a b => tierOf a.2 ≤ tierOf b.2) := by
  induction bs with
  | nil => exact List.Pairwise.nil
  | cons p bs ih =>
    obtain ⟨k, b⟩ := p
    rcases List.pairwise_cons.1 hp with ⟨hk, hbs⟩
    simp only [List.map_cons, List.flatten_cons]
    apply pairwise_tier_append k
    · exact fun a ha => le_of_eq (h (k, b) (List.mem_cons_self _ _) a ha)
    · intro c hc
      rcases List.mem_flatten.1 hc with ⟨l, hl, hcl⟩
      rcases List.mem_map.1 hl with ⟨q, hq, rfl⟩
      rw [h q (List.mem_cons_of_mem _ hq) c hcl]
      exact hk q.1 (List.mem_map_of_mem _ hq)
    · exact pairwise_of_tier_eq k b (h (k, b) (List.mem_cons_self _ _))
    · exact ih (fun q hq => h q (List.mem_cons_of_mem _ hq)) hbs

/-- C4 (amended): in every environment the discovered candidates appear
ordered by the fixed template tiers the source constructs — greeter-switch
(dm-tool) first, then desktop-session-quit (gnome-session-quit), then
terminate-session-by-session-id, terminate-session-found-by-uid,
terminate-user, forceful-process-kill, and display-manager restart always
last. -/
theorem c4_order (env : Env) :
    (buildMethods env).Pairwise (fun a b => tierOf a.2 ≤ tierOf b.2) := by
  have key := pairwise_tier_blocks
    [(0, optEntry (try_dm_tool_switch env) descDmTool),
     (1, optEntry (try_gnome_session_quit env) descGnome),
     (2, optEntry (try_loginctl_terminate_session env (get_xdg_session_id env))
          descTermSession),
     (3, optEntry (try_loginctl_found_session env env.uid) descFoundSession),
     (4, optEntry (try_loginctl_terminate_user env env.user) descTermUser),
     (5, optEntry (try_kill_user_pkill env env.user) descPkill),
     (6, dmBlock env)]
    ?_ ?_
  · unfold buildMethods
    simpa [List.flatten] using key
  · intro p hp a ha
    simp only [List.mem_cons, List.not_mem_nil, or_false] at hp
    rcases hp with rfl | rfl | rfl | rfl | rfl | rfl | rfl
    · rw [mem_optEntry ha]; show tierOf descDmTool = 0; decide
    · rw [mem_optEntry ha]; show tierOf descGnome = 1; decide
    · rw [mem_optEntry ha]; show tierOf descTermSession = 2; decide
    · rw [mem_optEntry ha]; show tierOf descFoundSession = 3; decide
    · rw [mem_optEntry ha]; show tierOf descTermUser = 4; decide
    · rw [mem_optEntry ha]; show tierOf descPkill = 5; decide
    · exact tier_dmBlock env a ha
  · show ([0, 1, 2, 3, 4, 5, 6] : List Nat).Pairwise (· ≤ ·)
    decide

/-- Counterexample to C4 as stated: with both `dm-tool` and
`gnome-session-quit` installed, Discovery places the greeter-switch
candidate first and the desktop-session-quit candidate second, so the list
is not ordered by the specified template order (desktop-session-quit
first). -/
theorem c4_counterexample :
    buildMethods envC4 =
      [(["dm-tool", "switch-to-greeter"], descDmTool),
       (["gnome-session-quit", "--logout", "--no-prompt"], descGnome)] ∧
    ¬ (buildMethods envC4).Pairwise
        (fun a b => specTierOf a.2 ≤ specTierOf b.2) := by
  constructor
  · decide
  · decide

/-- C5: when the invocation mechanism itself raises, the exception is
caught: the attempt yields exit status 1 (for either capture choice) with
the exception text as the captured error text, and the fallback loop
continues with the next candidate exactly as after a non-zero exit
status. -/
theorem c5_spawn_exception (env : Env) (cmd : List String) (msg d : String)
    (rest : List (List String × String)) (cap : Bool)
    (h : env.runList cmd = .error msg) :
    run_cmd_list env cmd cap = (1, "", msg) ∧
    runMethods env ((cmd, d) :: rest) =
      ⟨cmd :: (runMethods env rest).invoked, (runMethods env rest).exit,
        (runMethods env rest).succeeded⟩ := by
  have hrc : rcOf env cmd = 1 := by simp [rcOf, h]
  refine ⟨?_, ?_⟩
  · cases cap <;> simp [run_cmd_list, h]
  · have hne : rcOf env cmd ≠ 0 := by rw [hrc]; decide
    simp [runMethods, run_cmd_list_fst, hne]

/-- Witness for C5: an invocation oracle that raises `boom` produces exit
status 1 with `boom` recorded, and the loop moves on (here: to exhaustion).
-/
theorem c5_witness :
    run_cmd_list envW5 ["dm-tool", "switch-to-greeter"] true = (1, "", "boom") ∧
    runMethods envW5 [(["dm-tool", "switch-to-greeter"], descDmTool)] =
      ⟨[["dm-tool", "switch-to-greeter"]], 3, none⟩ :=
  c5_spawn_exception envW5 ["dm-tool", "switch-to-greeter"] "boom" descDmTool
    [] true rfl

/-- C6 (amended): when `--execute` is absent from the arguments, the
program performs no command invocation, reports no candidate outcome, and
exits with the failure status 1. -/
theorem c6_no_execute (env : Env) (argv : List String)
    (h : "--execute" ∉ argv) : mainRun env argv = ⟨[], 1, none⟩ := by
  simp [mainRun, h]

/-- Witness for C6 (amended): a run without `--execute` invokes nothing and
exits 1. -/
theorem c6_witness : mainRun envC6 ["logout.py"] = ⟨[], 1, none⟩ :=
  c6_no_execute envC6 ["logout.py"] (by decide)

/-- Counterexample to C6 as stated: without `--execute` the process exit
status is 1 — a failure status, not an informational success — and no
annotated candidate list is produced. -/
theorem c6_counterexample :
    mainRun envC6 ["logout.py"] = ⟨[], 1, none⟩ ∧
    (mainRun envC6 ["logout.py"]).exit ≠ 0 := by
  constructor
  · decide
  · decide

/-- C7 (amended): the program does not recognise `--force-method`; the
observable run depends on the argument list only through the presence of
`--execute`, so no candidate filtering ever happens. -/
theorem c7_force_ignored (env : Env) (a1 a2 : List String)
    (h : "--execute" ∈ a1 ↔ "--execute" ∈ a2) :
    mainRun env a1 = mainRun env a2 := by
  by_cases h1 : "--execute" ∈ a1
  · have h2 := h.1 h1
    simp [mainRun, h1, h2]
  · have h2 : "--execute" ∉ a2 := fun hc => h1 (h.2 hc)
    simp [mainRun, h1, h2]

/-- Witness for C7 (amended): adding `--force-method gnome-session-quit`
changes nothing about the run. -/
theorem c7_witness :
    mainRun envC7 ["--execute", "--force-method", "gnome-session-quit"] =
      mainRun envC7 ["--execute"] :=
  c7_force_ignored envC7 ["--execute", "--force-method", "gnome-session-quit"]
    ["--execute"] (by decide)

/-- Counterexample to C7 as stated: with `--force-method` naming a method
that is not among the detected candidates (only dm-tool is detected), the
program neither exits with status 2 nor refrains from invoking commands —
it runs the unfiltered list and here succeeds with exit status 0. -/
theorem c7_counterexample :
    mainRun envC7 ["--execute", "--force-method", "gnome-session-quit"] =
      ⟨[["dm-tool", "switch-to-greeter"]], 0, some descDmTool⟩ ∧
    (mainRun envC7 ["--execute", "--force-method", "gnome-session-quit"]).exit
      ≠ 2 ∧
    (mainRun envC7
      ["--execute", "--force-method", "gnome-session-quit"]).invoked ≠ [] := by
  refine ⟨?_, ?_, ?_⟩
  · decide
  · decide
  · decide

/-- C9: Method Discovery is deterministic — two environments that agree on
executable presence, environment variables, user name, numeric uid, and the
session-enumeration (shell) answers produce the same candidate list, in the
same order. -/
theorem c9_deterministic (e1 e2 : Env) (hw : e1.which = e2.which)
    (hg : e1.getenv = e2.getenv) (hu : e1.user = e2.user)
    (hi : e1.uid = e2.uid) (hs : e1.shell = e2.shell) :
    buildMethods e1 = buildMethods e2 := by
  obtain ⟨w1, g1, u1, i1, s1, r1⟩ := e1
  obtain ⟨w2, g2, u2, i2, s2, r2⟩ := e2
  dsimp only at hw hg hu hi hs
  subst hw hg hu hi hs
  rfl

/-- Witness for C9: two runs whose discovery-relevant observations coincide
(but whose invocation oracles differ) discover identical candidate
lists. -/
theorem c9_witness : buildMethods envC9A = buildMethods envC9B :=
  c9_deterministic envC9A envC9B rfl rfl rfl rfl rfl

/-- C10: with `XDG_SESSION_ID` unset and `WAYLAND_DISPLAY` set to a
nonempty value, the session identifier Discovery uses is the
`WAYLAND_DISPLAY` value, and (with `loginctl` installed) the
terminate-session-by-session-id candidate is materialised with that display
name as the command argument and appears in the candidate list. -/
theorem c10_wayland (env : Env) (w : String)
    (h1 : env.getenv "XDG_SESSION_ID" = none)
    (h2 : env.getenv "WAYLAND_DISPLAY" = some w)
    (h3 : env.which "loginctl" = true) (hw : w ≠ "") :
    get_xdg_session_id env = some w ∧
    try_loginctl_terminate_session env (get_xdg_session_id env) =
      some ["loginctl", "terminate-session", w] ∧
    (["loginctl", "terminate-session", w], descTermSession) ∈
      buildMethods env := by
  have hid : get_xdg_session_id env = some w := by
    simp [get_xdg_session_id, pyOr, pyTruthy, h1, h2]
  have hcand : try_loginctl_terminate_session env (get_xdg_session_id env) =
      some ["loginctl", "terminate-session", w] := by
    rw [hid]
    simp [try_loginctl_terminate_session, cmd_exists, h3, hw]
  refine ⟨hid, hcand, ?_⟩
  simp only [buildMethods, List.mem_append, hcand, optEntry]
  simp

/-- Witness for C10: with `WAYLAND_DISPLAY=wayland-0` and no
`XDG_SESSION_ID`, the loginctl candidate carries the display name. -/
theorem c10_witness :
    get_xdg_session_id envC10 = some "wayland-0" ∧
    try_loginctl_terminate_session envC10 (get_xdg_session_id envC10) =
      some ["loginctl", "terminate-session", "wayland-0"] ∧
    (["loginctl", "terminate-session", "wayland-0"], descTermSession) ∈
      buildMethods envC10 :=
  c10_wayland envC10 "wayland-0" rfl rfl rfl (by decide)

/-- A session id returned by the enumeration walk is one whose metadata
query succeeded and named the wanted uid. -/
theorem findSessionAux_matches (sh : String → SpawnResult) (uid : Nat)
    (lines : List String) (s : String)
    (h : findSessionAux sh uid lines = some s) :
    sessionMatchesUid sh s uid = true := by
  induction lines with
  | nil => simp [findSessionAux] at h
  | cons line rest ih =>
    simp only [findSessionAux] at h
    split at h
    next => exact ih h
    next session tailp hps =>
      split at h
      next hmatch =>
        simp only [Option.some.injEq] at h
        subst h
        exact hmatch
      next => exact ih h

/-- C8 (amended): the uid-lookup candidate is governed by best-effort
queries — without `loginctl` it is omitted; when the enumeration query
fails (non-zero exit or empty output) it is omitted; when the lookup finds
no session it is omitted; when it finds a session, that session's metadata
query succeeded and named the current uid and the candidate is
materialised; and the whole lookup depends only on executable presence and
the shell answers, not on the environment variables — the enumeration is
consulted whether or not a session id is available from the environment. -/
theorem c8_found_session (env : Env) (uid : Nat) :
    (env.which "loginctl" = false →
      try_loginctl_found_session env uid = none) ∧
    ((run_shell env "loginctl list-sessions --no-legend" true).1 ≠ 0 ∨
        (run_shell env "loginctl list-sessions --no-legend" true).2.1 = "" →
      try_loginctl_found_session env uid = none) ∧
    (find_session_for_uid env uid = none →
      try_loginctl_found_session env uid = none) ∧
    (∀ s, find_session_for_uid env uid = some s →
      sessionMatchesUid env.shell s uid = true ∧
      try_loginctl_found_session env uid =
        some ["loginctl", "terminate-session", s]) ∧
    (∀ e2 : Env, env.which = e2.which → env.shell = e2.shell →
      try_loginctl_found_session env uid =
        try_loginctl_found_session e2 uid) := by
  refine ⟨?_, ?_, ?_, ?_, ?_⟩
  · intro h
    simp [try_loginctl_found_session, cmd_exists, h]
  · intro hfail
    have hnone : find_session_for_uid env uid = none := by
      unfold find_session_for_uid
      split
      · rfl
      · rw [if_pos hfail]
    unfold try_loginctl_found_session
    rw [hnone]
    split <;> rfl
  · intro h
    unfold try_loginctl_found_session
    rw [h]
    split <;> rfl
  · intro s h
    refine ⟨?_, ?_⟩
    · have h2 := h
      unfold find_session_for_uid at h2
      split at h2
      next => simp at h2
      next =>
        dsimp only at h2
        split at h2
        next => simp at h2
        next => exact findSessionAux_matches env.shell uid _ s h2
    · unfold try_loginctl_found_session
      split
      next hl =>
        unfold find_session_for_uid at h
        rw [if_pos hl] at h
        simp at h
      next => rw [h]
  · intro e2 hw hs
    obtain ⟨w1, g1, u1, i1, s1, r1⟩ := env
    obtain ⟨w2, g2, u2, i2, s2, r2⟩ := e2
    dsimp only at hw hs
    subst hw hs
    rfl

/-- Witness for C8 (amended): without `loginctl` the uid-lookup candidate
is omitted. -/
theorem c8_witness : try_loginctl_found_session envC8W 1000 = none :=
  (c8_found_session envC8W 1000).1 rfl

/-- Counterexample to C8 as stated: a session id is available directly from
the environment (`XDG_SESSION_ID=7`) in both variants, which agree on
executables and environment variables and differ only in the
session-enumeration answers — yet the uid-lookup candidates differ, so the
enumeration interface is consulted even when a session id is available. -/
theorem c8_counterexample :
    envC8A.getenv "XDG_SESSION_ID" = some "7" ∧
    envC8A.which = envC8B.which ∧
    envC8A.getenv = envC8B.getenv ∧
    envC8A.uid = envC8B.uid ∧
    try_loginctl_found_session envC8A 1000 =
      some ["loginctl", "terminate-session", "9"] ∧
    try_loginctl_found_session envC8B 1000 = none := by
  refine ⟨rfl, rfl, rfl, rfl, ?_, ?_⟩
  · decide
  · decide

end Logout
